import Mathlib

/-!
Shallow embedding of the RBAC backend (admin users, admin roles, admin
permissions, the normalized Role controller, and the authentication
pipeline) together with theorems settling the frozen claims.

Sources embedded:
  app/services/admin_user_service.py
  app/services/admin_role_service.py
  app/services/auth_service.py
  app/controllers/auth_controller.py
  app/controllers/role_controller.py
  app/models/admin_user_model.py, admin_role_model.py,
  admin_permission_model.py, role_model.py, auth_model.py

Modelling conventions:
  - JSON-encoded list columns (role_ids, permissions) are modelled as the
    parsed lists; JSON (de)serialization is an external collaborator per
    the database layer and is the identity on well-formed data.
  - Timestamps (created_at, updated_at) are omitted: no claim depends on
    them.
  - Logging is omitted (it does not affect data flow).
  - Password hashing and verification are opaque collaborators; services
    that need them take a `verify` function as an explicit parameter.
  - `uuid.UUID(s)` is modelled by `parseUUID?`: strip hyphens, require 32
    hex digits.  Comparison of a parsed UUID with a stored key is modelled
    as equality of the hyphen-stripped forms (stored keys in the
    denormalized schema are produced by `str(uuid4()).replace('-','')`
    and are lowercase 32-hex by construction; concrete inputs below use
    lowercase hex throughout).
  - Python `str.replace('-', '')` with a single-character pattern and an
    empty replacement removes every hyphen, modelled as a character
    filter (`normalizeId`).
  - Mutating services return `DB × Except ApiError α`: on error the first
    component is the unchanged store (the source raises before mutating,
    or rolls back).
-/

deriving instance DecidableEq for Except

namespace Backend

/-- Identifier normalization used throughout the services:
`role_id.replace('-', '')` / `perm_id.replace('-', '')`. -/
def normalizeId (s : String) : String :=
  String.mk (s.toList.filter (fun c => c ≠ '-'))

/-- Decimal value of a digit list. -/
def digitsToNat (cs : List Char) : Nat :=
  cs.foldl (fun acc c => acc * 10 + (c.toNat - 48)) 0

/-- Python `int(s)` on strings: optional surrounding whitespace, an
optional sign, then at least one decimal digit; anything else raises
`ValueError` (modelled as `none`).  Underscore digit separators accepted
by CPython are not modelled; no claim depends on them. -/
def pyInt? (s : String) : Option Int :=
  let cs := (s.toList.dropWhile Char.isWhitespace).reverse.dropWhile Char.isWhitespace
  match cs.reverse with
  | [] => none
  | c :: rest =>
      let digits := if c == '-' || c == '+' then rest else c :: rest
      if !digits.isEmpty && digits.all Char.isDigit then
        some (if c == '-' then -(digitsToNat digits : Int) else (digitsToNat digits : Int))
      else none

def isHexChar (c : Char) : Bool :=
  c.isDigit || ("abcdefABCDEF".toList.contains c)

/-- Python `uuid.UUID(s)`: accepts the canonical hyphenated form and the
hyphen-stripped form; succeeds exactly when 32 hex digits remain after
stripping hyphens.  The parsed value is represented by its
hyphen-stripped digit string. -/
def parseUUID? (s : String) : Option String :=
  let t := normalizeId s
  if t.length == 32 && t.toList.all isHexChar then some t else none

/-- app/models/admin_permission_model.py `AdminPermission` (table row).
`id` is the hyphen-stripped uuid4 primary key. -/
structure AdminPermission where
  id : String
  name : String
  action : String
  resource : String
  is_active : Bool
  deriving DecidableEq

/-- app/models/admin_role_model.py `AdminRole` (table row).  `id` is the
hyphen-stripped uuid4 primary key; `permissions` is the parsed form of
the JSON-encoded permission-id list. -/
structure AdminRole where
  id : String
  name : String
  description : Option String := none
  is_system_role : Bool := false
  is_active : Bool := true
  permissions : List String := []
  deriving DecidableEq

/-- app/models/admin_user_model.py `AdminUser` (table row).  `password`
holds the digest; `role_ids` and `permissions` are the parsed forms of
the JSON-encoded list columns. -/
structure AdminUser where
  id : String
  email : String
  username : String
  full_name : String
  password : String
  is_active : Bool := true
  role_ids : List String := []
  permissions : List String := []
  deriving DecidableEq

/-- app/models/role_model.py `Role` (normalized RBAC schema).  The UUID
primary key is modelled by its hyphen-stripped digit string. -/
structure Role where
  id : String
  name : String
  description : Option String := none
  is_system_role : Bool := false
  deriving DecidableEq

/-- The backing store: one list per table used by the embedded services. -/
structure DB where
  admin_users : List AdminUser := []
  admin_roles : List AdminRole := []
  admin_permissions : List AdminPermission := []
  roles : List Role := []
  deriving DecidableEq

/-- HTTPException surfaced by a service: status code and detail message. -/
structure ApiError where
  status : Nat
  detail : String
  deriving DecidableEq

/-- admin_user_service.get_admin_user_by_email_service:
`select(AdminUser).where(AdminUser.email == email)` first row. -/
def findAdminUserByEmail (email : String) (db : DB) : Option AdminUser :=
  db.admin_users.find? (fun u => u.email == email)

/-- Role lookup inside the resolver
(admin_user_service._get_user_permissions_from_roles and
create_admin_user_service): the role id from the JSON list is normalized
and compared with the stored primary key; a found role contributes its
permission-id list, a dangling reference contributes nothing. -/
def rolePermissionIds (db : DB) (rid : String) : List String :=
  match db.admin_roles.find? (fun r => r.id == normalizeId rid) with
  | some r => r.permissions
  | none => []

/-- admin_user_service._get_user_permissions_from_roles: permissions of
each assigned role (looked up after normalization), extended with the
user's direct permissions, deduplicated by `list(set(...))`.  The
Python set iteration order is unspecified; `List.dedup` is used as a
canonical representative and every claim about this function is stated
at the level of the underlying set. -/
def getUserPermissionsFromRoles (user : AdminUser) (db : DB) : List String :=
  let rolePermissions := (user.role_ids.map (rolePermissionIds db)).flatten
  (rolePermissions ++ user.permissions).dedup

/-- Permission lookup with normalization, as in
admin_user_service._get_permission_names_from_ids. -/
def findAdminPermissionByNormId (db : DB) (pid : String) : Option AdminPermission :=
  db.admin_permissions.find? (fun p => p.id == normalizeId pid)

/-- admin_user_service._get_permission_names_from_ids: for each id,
normalize, look up the permission; append its name when found, skip
(with a logged warning, not modelled) when not. -/
def getPermissionNamesFromIds (ids : List String) (db : DB) : List String :=
  ids.filterMap (fun i => (findAdminPermissionByNormId db i).map (fun p => p.name))

/-- Effective-permission characterization: the resolver output is, as a
set, the union of the direct permissions and the permissions contributed
by each assigned role. -/
theorem resolve_toFinset (user : AdminUser) (db : DB) :
    (getUserPermissionsFromRoles user db).toFinset =
      user.permissions.toFinset ∪
        user.role_ids.toFinset.biUnion (fun rid => (rolePermissionIds db rid).toFinset) := by
  ext x
  simp only [getUserPermissionsFromRoles, List.mem_toFinset, List.mem_dedup, List.mem_append,
    List.mem_flatten, List.mem_map, Finset.mem_union, Finset.mem_biUnion]
  constructor
  · rintro (⟨l, ⟨rid, hrid, rfl⟩, hx⟩ | hx)
    · exact Or.inr ⟨rid, hrid, hx⟩
    · exact Or.inl hx
  · rintro (hx | ⟨rid, hrid, hx⟩)
    · exact Or.inr hx
    · exact Or.inl ⟨rolePermissionIds db rid, ⟨rid, hrid, rfl⟩, hx⟩

/-- C1: the effective permission set computed by
`_get_user_permissions_from_roles` equals the set union of the user's
direct permission ids and the permission ids of every role referenced in
its role-id list; the result is duplicate-free; assigning an already
assigned role id a second time does not change the result. -/
theorem c1_resolution_union (user : AdminUser) (db : DB) :
    (getUserPermissionsFromRoles user db).toFinset =
      user.permissions.toFinset ∪
        user.role_ids.toFinset.biUnion (fun rid => (rolePermissionIds db rid).toFinset) ∧
    (getUserPermissionsFromRoles user db).Nodup ∧
    (∀ rid, rid ∈ user.role_ids →
      (getUserPermissionsFromRoles { user with role_ids := rid :: user.role_ids } db).toFinset =
        (getUserPermissionsFromRoles user db).toFinset) := by
  refine ⟨resolve_toFinset user db, List.nodup_dedup _, ?_⟩
  intro rid hmem
  rw [resolve_toFinset, resolve_toFinset]
  simp only
  rw [List.toFinset_cons, Finset.insert_eq_self.mpr (List.mem_toFinset.mpr hmem)]

def witnessRole : AdminRole :=
  { id := "aaaaaaaaaaaaaaaaaaaaaaaaaaaaaaaa"
    name := "support"
    permissions := ["11111111222233334444555555555555"] }

def witnessUser : AdminUser :=
  { id := "bbbbbbbbbbbbbbbbbbbbbbbbbbbbbbbb"
    email := "u@example.com"
    username := "u"
    full_name := "U"
    password := "pw"
    role_ids := ["aaaaaaaaaaaaaaaaaaaaaaaaaaaaaaaa"]
    permissions := ["99999999999999999999999999999999"] }

def witnessDB : DB :=
  { admin_roles := [witnessRole] }

/-- Witness for C1: duplicating the one assigned role id of a concrete
user leaves the resolved set unchanged. -/
theorem c1_resolution_union_witness :
    (getUserPermissionsFromRoles
        { witnessUser with role_ids := "aaaaaaaaaaaaaaaaaaaaaaaaaaaaaaaa" :: witnessUser.role_ids }
        witnessDB).toFinset =
      (getUserPermissionsFromRoles witnessUser witnessDB).toFinset :=
  (c1_resolution_union witnessUser witnessDB).2.2
    "aaaaaaaaaaaaaaaaaaaaaaaaaaaaaaaa" (by decide)

/-- auth_model.TokenData as used by the auth service (only the email
field is populated by verify_token_service). -/
structure TokenData where
  email : String
  deriving DecidableEq

/-- The claim set carried by a JWT issued or checked by this service:
`sub` (subject email, may be absent) and `exp` (expiry, seconds since
epoch). -/
structure TokenClaims where
  sub : Option String
  exp : Nat
  deriving DecidableEq

/-- A bearer token as seen by `jwt.decode` with the service key: either a
well-signed token with its claims, or a malformed / wrongly-signed one.
JWT encoding is an opaque collaborator; `signed` is the image of
`jwt.encode` under the service key. -/
inductive Token where
  | signed (claims : TokenClaims)
  | invalid
  deriving DecidableEq

/-- auth_model.TokenResponse. -/
structure TokenResponse where
  access_token : Token
  token_type : String
  deriving DecidableEq

/-- auth_service.create_access_token_service with
`data={"sub": email}`: claims are the subject email plus
`exp = now + lifetime` (the configured expiry delta). -/
def createAccessTokenService (email : String) (now lifetime : Nat) : Token :=
  Token.signed { sub := some email, exp := now + lifetime }

/-- auth_service.verify_token_service: `jwt.decode` fails on a malformed
or wrongly-signed token and on an expired one (both return `None`); a
decoded payload with no `sub` claim also returns `None`; otherwise the
subject email is returned.  The expiry boundary is modelled as
`exp ≤ now`; no claim depends on the boundary instant. -/
def verifyTokenService (t : Token) (now : Nat) : Option TokenData :=
  match t with
  | Token.invalid => none
  | Token.signed c =>
      if c.exp ≤ now then none
      else
        match c.sub with
        | none => none
        | some e => some { email := e }

/-- auth_service.authenticate_user_service: look up by email, reject if
absent, inactive, or the password does not verify against the stored
digest.  `verify` is the opaque password-verification collaborator
(`verify_password(plain, digest)`). -/
def authenticateUserService (verify : String → String → Bool)
    (email password : String) (db : DB) : Option AdminUser :=
  match findAdminUserByEmail email db with
  | none => none
  | some u =>
      if !u.is_active then none
      else if !(verify password u.password) then none
      else some u

/-- The uniform login failure: HTTP 401 with the single message used for
a missing user, an inactive user, and a wrong password alike. -/
def invalidCredentials : ApiError :=
  { status := 401, detail := "Incorrect email or password" }

/-- auth_service.login_user_service: authenticate, then issue a token
whose subject is the authenticated user's email with the configured
expiry; any authentication failure surfaces as the uniform 401. -/
def loginUserService (verify : String → String → Bool)
    (email password : String) (db : DB) (now lifetime : Nat) :
    Except ApiError TokenResponse :=
  match authenticateUserService verify email password db with
  | none => Except.error invalidCredentials
  | some u =>
      Except.ok { access_token := createAccessTokenService u.email now lifetime
                  token_type := "bearer" }

/-- auth_service.get_current_admin_user_service: verify the bearer token,
re-fetch the principal by the subject email, reject a missing or
inactive principal; every failure is HTTP 401.
auth_service.get_current_user_service has the identical decision
structure (same checks, same statuses and messages), so this definition
embeds both.  (The source's second `if email is None` check is
unreachable because verify_token_service already rejected a missing
subject.) -/
def getCurrentAdminUserService (t : Token) (db : DB) (now : Nat) :
    Except ApiError AdminUser :=
  match verifyTokenService t now with
  | none => Except.error { status := 401, detail := "Could not validate credentials" }
  | some td =>
      match findAdminUserByEmail td.email db with
      | none => Except.error { status := 401, detail := "User not found" }
      | some u =>
          if !u.is_active then Except.error { status := 401, detail := "Inactive user" }
          else Except.ok u

/-- auth_model.LoginResponse, as filled in by the login controller. -/
structure LoginResponse where
  access_token : Token
  token_type : String
  user_id : String
  email : String
  username : String
  full_name : String
  role_ids : List String
  permissions : List String
  user_type : String
  deriving DecidableEq

/-- auth_controller.login_user: run login_user_service, re-authenticate
to fetch the user row, and project it into the response.  The role_ids
and permissions fields are `json.loads` of the stored columns, i.e. the
stored lists themselves. -/
def loginUser (verify : String → String → Bool)
    (email password : String) (db : DB) (now lifetime : Nat) :
    Except ApiError LoginResponse :=
  match loginUserService verify email password db now lifetime with
  | Except.error e => Except.error e
  | Except.ok tok =>
      match authenticateUserService verify email password db with
      | none => Except.error invalidCredentials
      | some u =>
          Except.ok { access_token := tok.access_token
                      token_type := tok.token_type
                      user_id := u.id
                      email := u.email
                      username := u.username
                      full_name := u.full_name
                      role_ids := u.role_ids
                      permissions := u.permissions
                      user_type := "admin" }

/-- A found user matches the email predicate of the lookup. -/
theorem findAdminUserByEmail_email {email : String} {db : DB} {u : AdminUser}
    (h : findAdminUserByEmail email db = some u) : u.email = email := by
  have := List.find?_some h
  exact eq_of_beq this

/-- C4: the three login failure causes surface as one identical error.
Whether the email matches no user, the user is inactive, or the password
does not verify, login_user_service returns the same 401 response with
the same message, so the response does not reveal the cause. -/
theorem c4_uniform_login_failure (verify : String → String → Bool)
    (email password : String) (db : DB) (now lifetime : Nat) :
    (findAdminUserByEmail email db = none →
      loginUserService verify email password db now lifetime =
        Except.error invalidCredentials) ∧
    (∀ u, findAdminUserByEmail email db = some u → u.is_active = false →
      loginUserService verify email password db now lifetime =
        Except.error invalidCredentials) ∧
    (∀ u, findAdminUserByEmail email db = some u → verify password u.password = false →
      loginUserService verify email password db now lifetime =
        Except.error invalidCredentials) := by
  refine ⟨?_, ?_, ?_⟩
  · intro h
    simp [loginUserService, authenticateUserService, h]
  · intro u h hinact
    simp [loginUserService, authenticateUserService, h, hinact]
  · intro u h hpw
    by_cases hact : u.is_active = true
    · simp [loginUserService, authenticateUserService, h, hact, hpw]
    · simp [loginUserService, authenticateUserService, h,
        Bool.eq_false_iff.mpr hact]

/-- Witness for C4: on a store with no users at all, login with any
credentials returns the uniform 401. -/
theorem c4_uniform_login_failure_witness :
    loginUserService (fun p d => p == d) "nobody@x.com" "any"
        { admin_users := [] } 0 100 =
      Except.error invalidCredentials :=
  (c4_uniform_login_failure (fun p d => p == d) "nobody@x.com" "any"
      { admin_users := [] } 0 100).1 (by decide)

/-- C5: per-request authentication re-fetches the principal by the token
subject and fails with 401 whenever the token is invalid, expired, or
carries no subject, or the principal is missing or inactive; success
requires a live active principal fetched by the subject email.  In
particular a deactivated principal makes any token for it fail. -/
theorem c5_authenticate_rejects (t : Token) (db : DB) (now : Nat) :
    (∀ e, getCurrentAdminUserService t db now = Except.error e → e.status = 401) ∧
    (∀ u, getCurrentAdminUserService t db now = Except.ok u →
      ∃ td, verifyTokenService t now = some td ∧
        findAdminUserByEmail td.email db = some u ∧ u.is_active = true) ∧
    (verifyTokenService Token.invalid now = none) ∧
    (∀ c : TokenClaims, c.exp ≤ now → verifyTokenService (Token.signed c) now = none) ∧
    (∀ e : Nat, verifyTokenService (Token.signed { sub := none, exp := e }) now = none) ∧
    (∀ td, verifyTokenService t now = some td → findAdminUserByEmail td.email db = none →
      getCurrentAdminUserService t db now =
        Except.error { status := 401, detail := "User not found" }) ∧
    (∀ td u, verifyTokenService t now = some td →
      findAdminUserByEmail td.email db = some u → u.is_active = false →
      getCurrentAdminUserService t db now =
        Except.error { status := 401, detail := "Inactive user" }) := by
  refine ⟨?_, ?_, rfl, ?_, ?_, ?_, ?_⟩
  · intro e h
    unfold getCurrentAdminUserService at h
    cases hv : verifyTokenService t now with
    | none => simp [hv] at h; rw [← h]
    | some td =>
        simp only [hv] at h
        cases hf : findAdminUserByEmail td.email db with
        | none => simp [hf] at h; rw [← h]
        | some u =>
            simp only [hf] at h
            by_cases hact : u.is_active = true
            · simp [hact] at h
            · simp [Bool.eq_false_iff.mpr hact] at h
              rw [← h]
  · intro u h
    unfold getCurrentAdminUserService at h
    cases hv : verifyTokenService t now with
    | none => simp [hv] at h
    | some td =>
        simp only [hv] at h
        cases hf : findAdminUserByEmail td.email db with
        | none => simp [hf] at h
        | some u2 =>
            simp only [hf] at h
            by_cases hact : u2.is_active = true
            · simp [hact] at h
              subst h
              exact ⟨td, rfl, hf, hact⟩
            · simp [Bool.eq_false_iff.mpr hact] at h
  · intro c hc
    simp [verifyTokenService, hc]
  · intro e
    by_cases he : e ≤ now <;> simp [verifyTokenService, he]
  · intro td hv hf
    simp [getCurrentAdminUserService, hv, hf]
  · intro td u hv hf hinact
    simp [getCurrentAdminUserService, hv, hf, hinact]

/-- Witness for C5: a well-signed unexpired token for a concrete
deactivated user is rejected with 401 Inactive user. -/
theorem c5_authenticate_rejects_witness :
    getCurrentAdminUserService
        (Token.signed { sub := some "u@example.com", exp := 50 })
        { admin_users := [{ witnessUser with is_active := false }] } 10 =
      Except.error { status := 401, detail := "Inactive user" } :=
  (c5_authenticate_rejects
      (Token.signed { sub := some "u@example.com", exp := 50 })
      { admin_users := [{ witnessUser with is_active := false }] } 10).2.2.2.2.2.2
    { email := "u@example.com" } { witnessUser with is_active := false }
    (by decide) (by decide) (by decide)

/-- C6: a token issued by a successful login carries the login email as
its subject and an expiry; passed to per-request authentication before
that expiry, against any store in which a principal with that email
exists and is active, it returns exactly that principal, whose email
equals the one used at login. -/
theorem c6_login_roundtrip (verify : String → String → Bool)
    (email password : String) (db : DB) (now lifetime : Nat) (tr : TokenResponse)
    (h : loginUserService verify email password db now lifetime = Except.ok tr) :
    tr.access_token = Token.signed { sub := some email, exp := now + lifetime } ∧
    (∀ (db2 : DB) (now2 : Nat) (u2 : AdminUser),
      now2 < now + lifetime →
      findAdminUserByEmail email db2 = some u2 →
      u2.is_active = true →
      getCurrentAdminUserService tr.access_token db2 now2 = Except.ok u2 ∧
        u2.email = email) := by
  have hemail : ∀ u, authenticateUserService verify email password db = some u →
      u.email = email := by
    intro u ha
    unfold authenticateUserService at ha
    cases hf : findAdminUserByEmail email db with
    | none => simp [hf] at ha
    | some u0 =>
        simp only [hf] at ha
        by_cases h1 : u0.is_active = true
        · by_cases h2 : verify password u0.password = true
          · simp [h1, h2] at ha
            subst ha
            exact findAdminUserByEmail_email hf
          · simp [h1, Bool.eq_false_iff.mpr h2] at ha
        · simp [Bool.eq_false_iff.mpr h1] at ha
  have hsub : tr.access_token = Token.signed { sub := some email, exp := now + lifetime } := by
    unfold loginUserService at h
    cases ha : authenticateUserService verify email password db with
    | none => simp [ha] at h
    | some u =>
        simp only [ha] at h
        have hu : u.email = email := hemail u ha
        cases h
        simp [createAccessTokenService, hu]
  refine ⟨hsub, ?_⟩
  intro db2 now2 u2 hexp hfind hact
  have hnotexp : ¬ (now + lifetime ≤ now2) := Nat.not_le.mpr hexp
  constructor
  · rw [hsub]
    simp [getCurrentAdminUserService, verifyTokenService, hnotexp, hfind, hact]
  · exact findAdminUserByEmail_email hfind

/-- Witness for C6: a concrete successful login followed by
authentication against the same store returns the same user. -/
theorem c6_login_roundtrip_witness :
    getCurrentAdminUserService
        (Token.signed { sub := some "u@example.com", exp := 100 })
        { admin_users := [witnessUser] } 10 =
      Except.ok witnessUser ∧ witnessUser.email = "u@example.com" := by
  have h := c6_login_roundtrip (fun p d => p == d) "u@example.com" "pw"
    { admin_users := [witnessUser] } 0 100
    { access_token := Token.signed { sub := some "u@example.com", exp := 100 }
      token_type := "bearer" } (by decide)
  exact h.2 { admin_users := [witnessUser] } 10 witnessUser (by decide) (by decide) (by decide)

/-- app/models/admin_role_model.py `AdminRoleCreate` (request body). -/
structure AdminRoleCreate where
  name : String
  description : Option String := none
  is_system_role : Bool := false
  is_active : Bool := true
  permissions : List String := []
  deriving DecidableEq

/-- app/models/admin_role_model.py `AdminRoleUpdate`.  A `none` field
models a field absent from `dict(exclude_unset=True)`; explicitly-null
payload fields are not modelled (no claim involves them). -/
structure AdminRoleUpdate where
  name : Option String := none
  description : Option String := none
  is_system_role : Option Bool := none
  is_active : Option Bool := none
  permissions : Option (List String) := none
  deriving DecidableEq

/-- admin_role_service.get_admin_role_by_name_service. -/
def getAdminRoleByNameService (name : String) (db : DB) : Option AdminRole :=
  db.admin_roles.find? (fun r => r.name == name)

/-- admin_role_service.create_admin_role_service: reject a duplicate
name, otherwise persist a new row.  The `AdminRole(...)` constructor
call passes name, description, permissions and is_active but NOT
is_system_role, so the model default `false` applies (mirrored here by
omitting the field from the structure literal).  `newId` stands for the
`default_factory` uuid4 hex primary key. -/
def createAdminRoleService (data : AdminRoleCreate) (newId : String) (db : DB) :
    DB × Except ApiError AdminRole :=
  match getAdminRoleByNameService data.name db with
  | some _ => (db, Except.error { status := 400, detail := "Role name already exists" })
  | none =>
      let role : AdminRole :=
        { id := newId
          name := data.name
          description := data.description
          is_active := data.is_active
          permissions := data.permissions }
      ({ db with admin_roles := db.admin_roles ++ [role] }, Except.ok role)

/-- admin_role_service.get_admin_role_by_id_service: exact primary-key
match first; on a miss, `int(role_id)` and, for a positive in-range
value, the row at the 1-based position; every other case returns `None`
(`ValueError` and out-of-range positions are caught, never propagated).
The source's two nested positivity/range ifs collapse to one
conjunction; both else branches return `None`. -/
def getAdminRoleByIdService (role_id : String) (db : DB) : Option AdminRole :=
  match db.admin_roles.find? (fun r => r.id == role_id) with
  | some r => some r
  | none =>
      match pyInt? role_id with
      | none => none
      | some n =>
          if 0 < n ∧ n ≤ (db.admin_roles.length : Int) then
            db.admin_roles[n.toNat - 1]?
          else none

/-- admin_user_service._convert_id_to_user: same exact-match-then-
ordinal-position fallback over the admin_users table. -/
def convertIdToUser (user_id : String) (db : DB) : Option AdminUser :=
  match db.admin_users.find? (fun u => u.id == user_id) with
  | some u => some u
  | none =>
      match pyInt? user_id with
      | none => none
      | some n =>
          if 0 < n ∧ n ≤ (db.admin_users.length : Int) then
            db.admin_users[n.toNat - 1]?
          else none

/-- The `setattr` field loop of admin_role_service.update_admin_role_service
applied to an AdminRole: every provided field except `id` is written,
including `is_system_role`. -/
def applyAdminRoleUpdate (role : AdminRole) (u : AdminRoleUpdate) : AdminRole :=
  { role with
    name := u.name.getD role.name
    description := match u.description with
      | some d => some d
      | none => role.description
    is_system_role := u.is_system_role.getD role.is_system_role
    is_active := u.is_active.getD role.is_active
    permissions := u.permissions.getD role.permissions }

/-- admin_role_service.update_admin_role_service: `UUID(role_id)` (400 on
parse failure), lookup by the parsed UUID value (404 on a miss; UUID
equality is modelled as equality of hyphen-stripped digit strings), a
duplicate-name pre-check guarded by Python truthiness of the new name,
then the field loop and commit.  There is NO is_system_role check in
this function. -/
def updateAdminRoleService (role_id : String) (data : AdminRoleUpdate) (db : DB) :
    DB × Except ApiError AdminRole :=
  match parseUUID? role_id with
  | none => (db, Except.error { status := 400, detail := "Invalid role ID format" })
  | some v =>
      match db.admin_roles.find? (fun r => normalizeId r.id == v) with
      | none => (db, Except.error { status := 404, detail := "Role not found" })
      | some role =>
          let clash :=
            match data.name with
            | some n => !n.isEmpty && n != role.name && (getAdminRoleByNameService n db).isSome
            | none => false
          if clash then
            (db, Except.error { status := 400, detail := "Role name already exists" })
          else
            let role2 := applyAdminRoleUpdate role data
            ({ db with admin_roles :=
                db.admin_roles.map (fun r => if r.id == role.id then role2 else r) },
              Except.ok role2)

/-- admin_role_service.delete_admin_role_service: parse, lookup, delete
the row.  There is NO is_system_role check in this function. -/
def deleteAdminRoleService (role_id : String) (db : DB) : DB × Except ApiError Bool :=
  match parseUUID? role_id with
  | none => (db, Except.error { status := 400, detail := "Invalid role ID format" })
  | some v =>
      match db.admin_roles.find? (fun r => normalizeId r.id == v) with
      | none => (db, Except.error { status := 404, detail := "Role not found" })
      | some role =>
          ({ db with admin_roles := db.admin_roles.eraseP (fun r => r.id == role.id) },
            Except.ok true)

/-- app/models/role_model.py `RoleUpdate` for the normalized schema. -/
structure RoleUpdate where
  name : Option String := none
  description : Option String := none
  is_system_role : Option Bool := none
  deriving DecidableEq

/-- The `setattr` field loop of role_controller.update_role. -/
def applyRoleUpdate (role : Role) (u : RoleUpdate) : Role :=
  { role with
    name := u.name.getD role.name
    description := match u.description with
      | some d => some d
      | none => role.description
    is_system_role := u.is_system_role.getD role.is_system_role }

/-- role_controller.get_role_by_name. -/
def getRoleByName (name : String) (db : DB) : Option Role :=
  db.roles.find? (fun r => r.name == name)

/-- role_controller.update_role (normalized Role schema): parse the UUID,
look up the role, and — BEFORE any mutation — reject a system role with
400 Cannot update system roles; then the duplicate-name pre-check and
the field loop. -/
def updateRole (role_id : String) (data : RoleUpdate) (db : DB) :
    DB × Except ApiError Role :=
  match parseUUID? role_id with
  | none => (db, Except.error { status := 400, detail := "Invalid role ID format" })
  | some v =>
      match db.roles.find? (fun r => normalizeId r.id == v) with
      | none => (db, Except.error { status := 404, detail := "Role not found" })
      | some role =>
          if role.is_system_role then
            (db, Except.error { status := 400, detail := "Cannot update system roles" })
          else
            let clash :=
              match data.name with
              | some n => !n.isEmpty && n != role.name && (getRoleByName n db).isSome
              | none => false
            if clash then
              (db, Except.error { status := 400, detail := "Role name already exists" })
            else
              let role2 := applyRoleUpdate role data
              ({ db with roles := db.roles.map (fun r => if r.id == role.id then role2 else r) },
                Except.ok role2)

/-- role_controller.delete_role: rejects a system role with 400 Cannot
delete system roles before deleting. -/
def deleteRole (role_id : String) (db : DB) : DB × Except ApiError Bool :=
  match parseUUID? role_id with
  | none => (db, Except.error { status := 400, detail := "Invalid role ID format" })
  | some v =>
      match db.roles.find? (fun r => normalizeId r.id == v) with
      | none => (db, Except.error { status := 404, detail := "Role not found" })
      | some role =>
          if role.is_system_role then
            (db, Except.error { status := 400, detail := "Cannot delete system roles" })
          else
            ({ db with roles := db.roles.eraseP (fun r => r.id == role.id) }, Except.ok true)

/-- C2 (amended): system-role immutability holds on the normalized Role
path: update_role and delete_role on a role with is_system_role true
fail with 400 and return the store unchanged. -/
theorem c2_system_role_immutable_in_controller (role_id : String) (data : RoleUpdate)
    (db : DB) (v : String) (role : Role)
    (hp : parseUUID? role_id = some v)
    (hf : db.roles.find? (fun r => normalizeId r.id == v) = some role)
    (hs : role.is_system_role = true) :
    updateRole role_id data db =
      (db, Except.error { status := 400, detail := "Cannot update system roles" }) ∧
    deleteRole role_id db =
      (db, Except.error { status := 400, detail := "Cannot delete system roles" }) := by
  constructor
  · simp [updateRole, hp, hf, hs]
  · simp [deleteRole, hp, hf, hs]

/-- A concrete system role in the normalized schema. -/
def sysRole : Role :=
  { id := "cccccccccccccccccccccccccccccccc"
    name := "admin"
    is_system_role := true }

/-- Witness for C2 (amended): updating and deleting the concrete system
role both fail with 400 and leave the store unchanged. -/
theorem c2_system_role_immutable_in_controller_witness :
    updateRole "cccccccccccccccccccccccccccccccc" { name := some "x" } { roles := [sysRole] } =
      ({ roles := [sysRole] },
        Except.error { status := 400, detail := "Cannot update system roles" }) ∧
    deleteRole "cccccccccccccccccccccccccccccccc" { roles := [sysRole] } =
      ({ roles := [sysRole] },
        Except.error { status := 400, detail := "Cannot delete system roles" }) :=
  c2_system_role_immutable_in_controller "cccccccccccccccccccccccccccccccc"
    { name := some "x" } { roles := [sysRole] }
    "cccccccccccccccccccccccccccccccc" sysRole (by decide) (by decide) (by decide)

/-- A concrete system role in the denormalized AdminRole schema. -/
def sysAdminRole : AdminRole :=
  { id := "cccccccccccccccccccccccccccccccc"
    name := "admin"
    is_system_role := true
    permissions := ["11111111222233334444555555555555"] }

/-- C2 counterexample: the denormalized AdminRole update and delete
services perform no is_system_role check, so a system AdminRole is
renamed and deleted successfully instead of failing with an
immutable-role error. -/
theorem c2_counterexample :
    sysAdminRole.is_system_role = true ∧
    (updateAdminRoleService "cccccccccccccccccccccccccccccccc" { name := some "renamed" }
        { admin_roles := [sysAdminRole] }).2 =
      Except.ok { sysAdminRole with name := "renamed" } ∧
    ((updateAdminRoleService "cccccccccccccccccccccccccccccccc" { name := some "renamed" }
        { admin_roles := [sysAdminRole] }).1.admin_roles.map (fun r => r.name)) = ["renamed"] ∧
    (deleteAdminRoleService "cccccccccccccccccccccccccccccccc"
        { admin_roles := [sysAdminRole] }).2 = Except.ok true ∧
    (deleteAdminRoleService "cccccccccccccccccccccccccccccccc"
        { admin_roles := [sysAdminRole] }).1.admin_roles = [] := by
  decide

/-- C10: every role created through create_admin_role_service is stored
with is_system_role false regardless of the is_system_role value in the
request; a duplicate name is rejected without touching the store. -/
theorem c10_created_roles_never_system (data : AdminRoleCreate) (newId : String) (db : DB) :
    (∀ db2 role, createAdminRoleService data newId db = (db2, Except.ok role) →
      role.is_system_role = false ∧ role.id = newId ∧ role.name = data.name ∧
        role.permissions = data.permissions ∧ role.is_active = data.is_active ∧
        db2.admin_roles = db.admin_roles ++ [role]) ∧
    (∀ r0, getAdminRoleByNameService data.name db = some r0 →
      createAdminRoleService data newId db =
        (db, Except.error { status := 400, detail := "Role name already exists" })) := by
  constructor
  · intro db2 role h
    unfold createAdminRoleService at h
    cases hn : getAdminRoleByNameService data.name db with
    | some r => simp [hn] at h
    | none =>
        simp only [hn] at h
        injection h with hdb hrole
        injection hrole with hrole
        subst hdb
        subst hrole
        exact ⟨rfl, rfl, rfl, rfl, rfl, rfl⟩
  · intro r0 h
    simp [createAdminRoleService, h]

/-- The role stored by the C10 witness creation. -/
def auditorRole : AdminRole :=
  { id := "dddddddddddddddddddddddddddddddd", name := "auditor" }

/-- Witness for C10: a creation request that asks for
is_system_role := true still stores a non-system role. -/
theorem c10_created_roles_never_system_witness :
    auditorRole.is_system_role = false ∧
    auditorRole.id = "dddddddddddddddddddddddddddddddd" ∧
    auditorRole.name = ({ name := "auditor", is_system_role := true } : AdminRoleCreate).name ∧
    auditorRole.permissions =
      ({ name := "auditor", is_system_role := true } : AdminRoleCreate).permissions ∧
    auditorRole.is_active =
      ({ name := "auditor", is_system_role := true } : AdminRoleCreate).is_active ∧
    ({ admin_roles := [auditorRole] } : DB).admin_roles =
      ({} : DB).admin_roles ++ [auditorRole] :=
  (c10_created_roles_never_system
      { name := "auditor", is_system_role := true }
      "dddddddddddddddddddddddddddddddd" {}).1
    { admin_roles := [auditorRole] } auditorRole rfl

/-- C9: when an identifier string is not an existing primary key, the
ordinal-position fallback of get_admin_role_by_id_service and
_convert_id_to_user returns nothing for an unparseable string, for a
non-positive integer, and for a position beyond the table size, and
returns the row at the 1-based position for an in-range integer; no
case raises (both functions are total and return an Option). -/
theorem c9_positional_fallback (s : String) (db : DB)
    (hrole : ∀ r ∈ db.admin_roles, r.id ≠ s)
    (huser : ∀ u ∈ db.admin_users, u.id ≠ s) :
    (pyInt? s = none →
      getAdminRoleByIdService s db = none ∧ convertIdToUser s db = none) ∧
    (∀ n : Int, pyInt? s = some n → n ≤ 0 →
      getAdminRoleByIdService s db = none ∧ convertIdToUser s db = none) ∧
    (∀ n : Int, pyInt? s = some n → (db.admin_roles.length : Int) < n →
      getAdminRoleByIdService s db = none) ∧
    (∀ n : Int, pyInt? s = some n → (db.admin_users.length : Int) < n →
      convertIdToUser s db = none) ∧
    (∀ n : Int, pyInt? s = some n → 0 < n → n ≤ (db.admin_roles.length : Int) →
      ∃ r, db.admin_roles[n.toNat - 1]? = some r ∧ getAdminRoleByIdService s db = some r) ∧
    (∀ n : Int, pyInt? s = some n → 0 < n → n ≤ (db.admin_users.length : Int) →
      ∃ u, db.admin_users[n.toNat - 1]? = some u ∧ convertIdToUser s db = some u) := by
  have hfr : db.admin_roles.find? (fun r => r.id == s) = none :=
    List.find?_eq_none.mpr (fun r hr => by simpa using hrole r hr)
  have hfu : db.admin_users.find? (fun u => u.id == s) = none :=
    List.find?_eq_none.mpr (fun u hu => by simpa using huser u hu)
  refine ⟨?_, ?_, ?_, ?_, ?_, ?_⟩
  · intro hp
    exact ⟨by simp [getAdminRoleByIdService, hfr, hp],
           by simp [convertIdToUser, hfu, hp]⟩
  · intro n hp hn
    have h1 : ¬ (0 < n) := by omega
    exact ⟨by simp [getAdminRoleByIdService, hfr, hp, h1],
           by simp [convertIdToUser, hfu, hp, h1]⟩
  · intro n hp hn
    have h1 : ¬ (n ≤ (db.admin_roles.length : Int)) := by omega
    simp [getAdminRoleByIdService, hfr, hp, h1]
  · intro n hp hn
    have h1 : ¬ (n ≤ (db.admin_users.length : Int)) := by omega
    simp [convertIdToUser, hfu, hp, h1]
  · intro n hp h1 h2
    have hlt : n.toNat - 1 < db.admin_roles.length := by omega
    exact ⟨db.admin_roles[n.toNat - 1],
      by simp [List.getElem?_eq_getElem hlt],
      by simp [getAdminRoleByIdService, hfr, hp, h1, h2, List.getElem?_eq_getElem hlt]⟩
  · intro n hp h1 h2
    have hlt : n.toNat - 1 < db.admin_users.length := by omega
    exact ⟨db.admin_users[n.toNat - 1],
      by simp [List.getElem?_eq_getElem hlt],
      by simp [convertIdToUser, hfu, hp, h1, h2, List.getElem?_eq_getElem hlt]⟩

/-- Witness for C9: in a two-role store whose keys are hex strings, the
identifier string 2 resolves through the fallback to the second row. -/
theorem c9_positional_fallback_witness :
    ∃ r, ({ admin_roles := [witnessRole, sysAdminRole] } : DB).admin_roles[(2 : Int).toNat - 1]? =
        some r ∧
      getAdminRoleByIdService "2" { admin_roles := [witnessRole, sysAdminRole] } = some r :=
  (c9_positional_fallback "2" { admin_roles := [witnessRole, sysAdminRole] }
      (by decide) (by decide)).2.2.2.2.1 2 (by decide) (by decide) (by decide)

/-- Normalization is idempotent: stripping hyphens twice is the same as
stripping them once. -/
theorem normalizeId_idem (s : String) : normalizeId (normalizeId s) = normalizeId s := by
  unfold normalizeId
  simp [String.toList, List.filter_filter]

/-- The role lookup inside the resolver is insensitive to the identifier
format: it normalizes before comparing. -/
theorem rolePermissionIds_normalize (db : DB) (rid : String) :
    rolePermissionIds db (normalizeId rid) = rolePermissionIds db rid := by
  unfold rolePermissionIds
  rw [normalizeId_idem]

/-- The permission lookup of the name projection is insensitive to the
identifier format. -/
theorem findAdminPermissionByNormId_normalize (db : DB) (pid : String) :
    findAdminPermissionByNormId db (normalizeId pid) = findAdminPermissionByNormId db pid := by
  unfold findAdminPermissionByNormId
  rw [normalizeId_idem]

/-- UUID parsing depends only on the hyphen-stripped digits. -/
theorem parseUUID_normalize (s : String) :
    parseUUID? (normalizeId s) = parseUUID? s := by
  unfold parseUUID?
  rw [normalizeId_idem]

/-- C3 (amended): normalization holds where the source applies it — the
resolver normalizes role ids before lookup, the name projection
normalizes permission ids before lookup, and the UUID-parsing update
service accepts both identifier formats alike — so those operations give
the same result for a hyphenated and a hyphen-stripped identifier.  (The
claim fails elsewhere: the resolver's deduplication and the exact-match
id lookup compare raw strings; see the counterexample.) -/
theorem c3_normalized_lookups (db : DB) :
    (∀ s, normalizeId (normalizeId s) = normalizeId s) ∧
    (∀ u : AdminUser,
      getUserPermissionsFromRoles { u with role_ids := u.role_ids.map normalizeId } db =
        getUserPermissionsFromRoles u db) ∧
    (∀ ids, getPermissionNamesFromIds (ids.map normalizeId) db =
      getPermissionNamesFromIds ids db) ∧
    (∀ rid data, updateAdminRoleService (normalizeId rid) data db =
      updateAdminRoleService rid data db) := by
  refine ⟨normalizeId_idem, ?_, ?_, ?_⟩
  · intro u
    unfold getUserPermissionsFromRoles
    simp only [List.map_map]
    have hmap : u.role_ids.map (rolePermissionIds db ∘ normalizeId) =
        u.role_ids.map (rolePermissionIds db) :=
      List.map_congr_left (fun a _ => rolePermissionIds_normalize db a)
    rw [hmap]
  · intro ids
    unfold getPermissionNamesFromIds
    induction ids with
    | nil => rfl
    | cons a t ih =>
        simp only [List.map_cons, List.filterMap_cons, findAdminPermissionByNormId_normalize, ih]
  · intro rid data
    unfold updateAdminRoleService
    rw [parseUUID_normalize]

/-- A principal holding the hyphenated form of a permission id directly
while a role grants the hyphen-stripped form. -/
def hyphenUser : AdminUser :=
  { id := "eeeeeeeeeeeeeeeeeeeeeeeeeeeeeeee"
    email := "h@x.com"
    username := "h"
    full_name := "H"
    password := "pw"
    role_ids := ["aaaaaaaaaaaaaaaaaaaaaaaaaaaaaaaa"]
    permissions := ["11111111-2222-3333-4444-555555555555"] }

/-- C3 counterexample: two representations of the same UUID are NOT
treated as equal everywhere.  The resolver's deduplication compares raw
strings, so the hyphenated direct permission and the hyphen-stripped
role permission both survive in the resolved set; and the exact-match
lookup of get_admin_role_by_id_service finds a role by its stored
stripped key but not by the hyphenated form of the same UUID. -/
theorem c3_counterexample :
    normalizeId "11111111-2222-3333-4444-555555555555" =
      normalizeId "11111111222233334444555555555555" ∧
    "11111111-2222-3333-4444-555555555555" ∈
      getUserPermissionsFromRoles hyphenUser { admin_roles := [witnessRole] } ∧
    "11111111222233334444555555555555" ∈
      getUserPermissionsFromRoles hyphenUser { admin_roles := [witnessRole] } ∧
    ("11111111-2222-3333-4444-555555555555" : String) ≠
      "11111111222233334444555555555555" ∧
    getAdminRoleByIdService "aaaaaaaa-aaaa-aaaa-aaaa-aaaaaaaaaaaa"
      { admin_roles := [witnessRole] } = none ∧
    getAdminRoleByIdService "aaaaaaaaaaaaaaaaaaaaaaaaaaaaaaaa"
      { admin_roles := [witnessRole] } = some witnessRole := by
  decide

/-- app/models/admin_user_model.py `AdminUserCreate` (request body). -/
structure AdminUserCreate where
  email : String
  username : String
  full_name : String
  password : String
  role_ids : List String := []
  permissions : List String := []
  deriving DecidableEq

/-- app/models/admin_user_model.py `AdminUserResponse` restricted to the
fields the services fill (timestamps omitted). -/
structure AdminUserResponse where
  id : String
  email : String
  username : String
  full_name : String
  is_active : Bool
  role_ids : List String
  permissions : List String
  permission_names : List String
  deriving DecidableEq

/-- admin_user_service.get_admin_user_by_username_service. -/
def findAdminUserByUsername (username : String) (db : DB) : Option AdminUser :=
  db.admin_users.find? (fun u => u.username == username)

/-- admin_user_service.create_admin_user_service: uniqueness pre-checks,
hash the password (`hashF` is the opaque digest collaborator), collect
the permissions of each requested role (normalized lookup), union them
with the directly requested permissions, deduplicate, and store that
snapshot in the user row's permissions column. -/
def createAdminUserService (hashF : String → String) (data : AdminUserCreate)
    (newId : String) (db : DB) : DB × Except ApiError AdminUserResponse :=
  match findAdminUserByEmail data.email db with
  | some _ => (db, Except.error { status := 400, detail := "Email already exists" })
  | none =>
      match findAdminUserByUsername data.username db with
      | some _ => (db, Except.error { status := 400, detail := "Username already exists" })
      | none =>
          let rolePermissions := (data.role_ids.map (rolePermissionIds db)).flatten
          let all_permissions := (rolePermissions ++ data.permissions).dedup
          let user : AdminUser :=
            { id := newId
              email := data.email
              username := data.username
              full_name := data.full_name
              password := hashF data.password
              role_ids := data.role_ids
              permissions := all_permissions }
          ({ db with admin_users := db.admin_users ++ [user] },
            Except.ok { id := user.id, email := user.email, username := user.username,
                        full_name := user.full_name, is_active := user.is_active,
                        role_ids := data.role_ids, permissions := all_permissions,
                        permission_names := getPermissionNamesFromIds all_permissions db })

/-- admin_user_service.get_admin_user_by_id_service: find the user (with
the ordinal fallback) and recompute its effective permissions from its
roles on this read. -/
def getAdminUserByIdService (user_id : String) (db : DB) : Option AdminUserResponse :=
  match convertIdToUser user_id db with
  | none => none
  | some u =>
      let permissions := getUserPermissionsFromRoles u db
      some { id := u.id, email := u.email, username := u.username, full_name := u.full_name,
             is_active := u.is_active, role_ids := u.role_ids, permissions := permissions,
             permission_names := getPermissionNamesFromIds permissions db }

/-- A successful authentication returns exactly the user row found by
email. -/
theorem authenticateUserService_find {verify : String → String → Bool}
    {email password : String} {db : DB} {u : AdminUser}
    (h : authenticateUserService verify email password db = some u) :
    findAdminUserByEmail email db = some u := by
  unfold authenticateUserService at h
  cases hf : findAdminUserByEmail email db with
  | none => simp [hf] at h
  | some u0 =>
      simp only [hf] at h
      by_cases h1 : u0.is_active = true
      · by_cases h2 : verify password u0.password = true
        · simp [h1, h2] at h
          rw [← h]
        · simp [h1, Bool.eq_false_iff.mpr h2] at h
      · simp [Bool.eq_false_iff.mpr h1] at h

/-- C7 (amended): the user read services recompute the effective
permission set from the current store on every read, but the login
controller's response projects the permissions column stored on the
principal row (the snapshot written at create/update time), not the
recomputed effective set. -/
theorem c7_login_projects_stored_permissions :
    (∀ (verify : String → String → Bool) (email password : String) (db : DB)
        (now lifetime : Nat) (resp : LoginResponse),
      loginUser verify email password db now lifetime = Except.ok resp →
      ∃ u, findAdminUserByEmail email db = some u ∧
        resp.permissions = u.permissions ∧ resp.role_ids = u.role_ids ∧
        resp.email = u.email) ∧
    (∀ (user_id : String) (db : DB) (resp2 : AdminUserResponse),
      getAdminUserByIdService user_id db = some resp2 →
      ∃ u, convertIdToUser user_id db = some u ∧
        resp2.permissions = getUserPermissionsFromRoles u db ∧
        resp2.permission_names =
          getPermissionNamesFromIds (getUserPermissionsFromRoles u db) db) := by
  constructor
  · intro verify email password db now lifetime resp h
    unfold loginUser at h
    cases hl : loginUserService verify email password db now lifetime with
    | error e => simp [hl] at h
    | ok tok =>
        simp only [hl] at h
        cases ha : authenticateUserService verify email password db with
        | none => simp [ha] at h
        | some u =>
            simp only [ha] at h
            injection h with h
            exact ⟨u, authenticateUserService_find ha,
              by rw [← h], by rw [← h], by rw [← h]⟩
  · intro user_id db resp2 h
    unfold getAdminUserByIdService at h
    cases hc : convertIdToUser user_id db with
    | none => simp [hc] at h
    | some u =>
        simp only [hc] at h
        injection h with h
        exact ⟨u, rfl, by rw [← h], by rw [← h]⟩

/-- Witness for C7 (amended): a concrete successful login projects the
stored permissions column. -/
theorem c7_login_projects_stored_permissions_witness :
    ∃ u, findAdminUserByEmail "u@example.com" { admin_users := [witnessUser] } = some u ∧
      (["99999999999999999999999999999999"] : List String) = u.permissions ∧
      (["aaaaaaaaaaaaaaaaaaaaaaaaaaaaaaaa"] : List String) = u.role_ids ∧
      ("u@example.com" : String) = u.email :=
  (c7_login_projects_stored_permissions).1 (fun p d => p == d) "u@example.com" "pw"
    { admin_users := [witnessUser] } 0 100
    { access_token := Token.signed { sub := some "u@example.com", exp := 100 }
      token_type := "bearer"
      user_id := "bbbbbbbbbbbbbbbbbbbbbbbbbbbbbbbb"
      email := "u@example.com"
      username := "u"
      full_name := "U"
      role_ids := ["aaaaaaaaaaaaaaaaaaaaaaaaaaaaaaaa"]
      permissions := ["99999999999999999999999999999999"]
      user_type := "admin" } rfl

/-- A role, a user created while the role granted p1 (so the stored
snapshot is p1), and the store after the role's permissions are updated
to p2. -/
def opsRole : AdminRole :=
  { id := "bbbbbbbbbbbbbbbbbbbbbbbbbbbbbbbb", name := "ops", permissions := ["p1"] }

def opsUser : AdminUser :=
  { id := "ffffffffffffffffffffffffffffffff"
    email := "ops@x.com"
    username := "ops"
    full_name := "Ops"
    password := "pw"
    role_ids := ["bbbbbbbbbbbbbbbbbbbbbbbbbbbbbbbb"]
    permissions := ["p1"] }

def dbOps : DB := { admin_users := [opsUser], admin_roles := [opsRole] }

def dbOps2 : DB :=
  (updateAdminRoleService "bbbbbbbbbbbbbbbbbbbbbbbbbbbbbbbb"
    { permissions := some ["p2"] } dbOps).1

/-- C7 counterexample: creation stores the snapshot p1 on the user row;
after the role's permission list is updated to p2, a login returns the
stale snapshot p1 although the effective set resolved from the current
store contains p2 — the login response does not reflect the update. -/
theorem c7_counterexample :
    ((createAdminUserService (fun p => p)
        { email := "ops@x.com", username := "ops", full_name := "Ops", password := "pw",
          role_ids := ["bbbbbbbbbbbbbbbbbbbbbbbbbbbbbbbb"] }
        "ffffffffffffffffffffffffffffffff"
        { admin_roles := [opsRole] }).1.admin_users.map (fun u => u.permissions)) = [["p1"]] ∧
    (updateAdminRoleService "bbbbbbbbbbbbbbbbbbbbbbbbbbbbbbbb"
        { permissions := some ["p2"] } dbOps).2 =
      Except.ok { opsRole with permissions := ["p2"] } ∧
    ((loginUser (fun p d => p == d) "ops@x.com" "pw" dbOps2 0 100).map
        (fun r => r.permissions)) = Except.ok ["p1"] ∧
    "p2" ∈ getUserPermissionsFromRoles opsUser dbOps2 ∧
    "p2" ∉ (["p1"] : List String) := by
  decide

/-- C8: the name projection returns exactly the names of the input ids
that resolve (after normalization) to an existing permission record,
skipping the rest without error (the function is total), while the raw
resolver output does not consult the permission table at all — so an
unresolved id stays in the raw set however the table changes. -/
theorem c8_name_projection_skips_dangling (ids : List String) (db : DB) :
    (∀ name, name ∈ getPermissionNamesFromIds ids db ↔
      ∃ i ∈ ids, ∃ p, findAdminPermissionByNormId db i = some p ∧ p.name = name) ∧
    (∀ (u : AdminUser) (ps : List AdminPermission),
      getUserPermissionsFromRoles u { db with admin_permissions := ps } =
        getUserPermissionsFromRoles u db) := by
  constructor
  · intro name
    simp [getPermissionNamesFromIds, List.mem_filterMap, Option.map_eq_some']
  · intro u ps
    rfl

end Backend
